import Mathlib

/-!
Verification of the CargarTemperatura telemetry pipeline.

This file gives a shallow embedding of the Python sources
(`main.py`, `module/temper_reader.py`, `module/location_info.py`,
`module/db_connection.py`, `module/json_builder.py`) and proves the
spec's claims about them.

Modelling conventions:
* Python exceptions are `Except PyExn`; a Lean `Except.error` is a raised
  exception, `Except.ok` a normal return.
* Python `str | None` values are `Option String`; JSON-ish values read
  from configuration files are `JVal`.
* Python `float` is modelled as `ℚ` (exact rationals); `round(x, 2)` is
  modelled as exact round-half-to-even at two decimal places.
* External effects (USB device enumeration and reads, file contents,
  database outcomes, clock values) are explicit inputs: a `Device` records
  the outcome each of its descriptor reads and its temperature read would
  have in this run, a `FileWorld` records a file's existence and parse
  outcome, a `DbWorld` records the outcomes of the connect / execute /
  commit calls, and the orchestrator's environment carries the per-call
  outcomes of the clock and the delivery sink.
-/

namespace CT

/-- Python exceptions that the modelled code can raise or catch. -/
inductive PyExn where
  | fileNotFound (path : String)
  | jsonDecode
  | keyError (k : String)
  | valueError (k : String)
  | typeError (msg : String)
  | deviceError (msg : String)
  | other (msg : String)
  deriving DecidableEq

/-- JSON-ish values occurring in the two configuration files.
(Arrays, booleans, exponent/infinity numerals are not used by the
configurations this program reads and are not modelled.) -/
inductive JVal where
  | str (s : String)
  | num (q : ℚ)
  | null
  | obj (fields : List (String × JVal))

/-- Association-list lookup, the model of `k in data` / `data[k]` on a
parsed JSON object (Python dicts preserve insertion order; lookup returns
the value stored at the first matching key). -/
def jlookup (fields : List (String × JVal)) (k : String) : Option JVal :=
  (fields.find? (fun p => p.1 == k)).map (fun p => p.2)

/-- Numeric value of a list of decimal digit characters. -/
def digitsVal (cs : List Char) : Nat :=
  cs.foldl (fun a c => 10 * a + (c.toNat - 48)) 0

/-- Model of Python `float(s)` on a string: optional sign, decimal digits
with at most one point, surrounding whitespace ignored.  (Exponents,
`inf`/`nan` and underscore separators are accepted by Python but never
occur in this program's configuration values; they are not modelled.) -/
def parseFloatStr (s : String) : Option ℚ :=
  let cs := s.trim.toList
  let body := match cs with
    | '+' :: rest => some (false, rest)
    | '-' :: rest => some (true, rest)
    | rest => some (false, rest)
  match body with
  | none => none
  | some (neg, ds) =>
    let intPart := ds.takeWhile (fun c => c ≠ '.')
    let rest := ds.dropWhile (fun c => c ≠ '.')
    let mag : Option ℚ :=
      match rest with
      | [] =>
        if intPart ≠ [] ∧ intPart.all Char.isDigit then
          some ((digitsVal intPart : ℚ))
        else none
      | '.' :: frac =>
        if (intPart ≠ [] ∨ frac ≠ []) ∧ intPart.all Char.isDigit ∧
            frac.all Char.isDigit then
          some ((digitsVal intPart : ℚ) + (digitsVal frac : ℚ) / 10 ^ frac.length)
        else none
      | _ => none
    match mag with
    | none => none
    | some q => some (if neg then -q else q)

/-- Model of Python `float(v)` on a configuration value: numbers coerce to
themselves, numeric strings parse, everything else raises
`TypeError`/`ValueError` (modelled as `none`). -/
def pyFloat? : JVal → Option ℚ
  | .num q => some q
  | .str s => parseFloatStr s
  | .null => none
  | .obj _ => none

/-- The state of one external JSON file: whether it exists, and what
`json.load` would yield if it is opened. -/
structure FileWorld where
  fexists : Bool
  content : Except Unit JVal

def configPath : String := "config/config.json"

def credPath : String := "config/credenciales.json"

/-- A Python `str | None` value. -/
abbrev PyStr := Option String

/-- A Python dict with string keys and string-or-None values, in insertion
order (the shape `get_device_metadata` returns). -/
abbrev PyDict := List (String × PyStr)

/-- Model of Python `d.get(k, default)`: the stored value when the key is
present — even when that stored value is `None` — and `default` only when
the key is absent. -/
def pyGet (d : PyDict) (k : String) (dflt : PyStr) : PyStr :=
  match d.find? (fun p => p.1 == k) with
  | some p => p.2
  | none => dflt

/-- Outcome of one `usb.util.get_string` call: a returned Python value
(`str` or `None`), or a raised exception (caught by the bare `except`). -/
inductive UsbRead where
  | ok (v : Option String)
  | err
  deriving DecidableEq

/-- The USB descriptor behind `device._device`, with the outcome each
string read would have in this run.  `idVendor`/`idProduct` are the
numeric ids that `hex()` formats. -/
structure Descriptor where
  idVendor : Nat
  idProduct : Nat
  iManufacturer : UsbRead
  iProduct : UsbRead
  iSerialNumber : UsbRead
  deriving DecidableEq

/-- One enumerated TEMPer device: `usbDev` is the `_device` attribute
(`none` models driver versions where accessing it raises
`AttributeError`), and `get_temperature` is the outcome its temperature
read would have in this run. -/
structure Device where
  usbDev : Option Descriptor
  get_temperature : Except PyExn ℚ

/-- Model of Python `hex(n)` for nonnegative `n`. -/
def pyHex (n : Nat) : String :=
  "0x" ++ (Nat.toDigits 16 n).asString

/-- Python truthiness of a `str | None` value: `None` and `""` are falsy. -/
def pyTruthy : PyStr → Bool
  | none => false
  | some s => s ≠ ""

/-- Embedding of `temper_reader.get_device_metadata`: builds the metadata
dict field by field; each `get_string` failure degrades only its own field
(`None` for manufacturer/product, the `'Desconocido'` sentinel for the
serial number, which is also substituted for a falsy serial value); a
missing `_device` attribute (`AttributeError`) replaces the whole dict. -/
def get_device_metadata (device : Device) : PyDict :=
  match device.usbDev with
  | none =>
    [("vendor_id", none), ("product_id", none), ("manufacturer", none),
     ("product", none), ("serial_number", some "Desconocido")]
  | some d =>
    [("vendor_id", some (pyHex d.idVendor)),
     ("product_id", some (pyHex d.idProduct)),
     ("manufacturer", match d.iManufacturer with
       | .ok v => v
       | .err => none),
     ("product", match d.iProduct with
       | .ok v => v
       | .err => none),
     ("serial_number", match d.iSerialNumber with
       | .ok v => if pyTruthy v then v else some "Desconocido"
       | .err => some "Desconocido")]

/-- One element of the list `get_medicion` returns. -/
structure Reading where
  metadata : PyDict
  temperature_c : ℚ
  deriving DecidableEq

/-- Embedding of `temper_reader.get_medicion`: one entry per enumerated
device, in enumeration order; a temperature read that raises propagates
out of the loop (the devices enumerated by `TemperHandler` are the
explicit `devices` argument). -/
def get_medicion (offset_celsius : ℚ) (devices : List Device) :
    Except PyExn (List Reading) :=
  match devices with
  | [] => .ok []
  | d :: rest =>
    match d.get_temperature with
    | .error e => .error e
    | .ok t =>
      match get_medicion offset_celsius rest with
      | .error e => .error e
      | .ok out => .ok (⟨get_device_metadata d, t + offset_celsius⟩ :: out)

/-- Round-half-to-even to an integer, the tie-breaking rule of Python's
`round`. -/
def roundHalfEven (x : ℚ) : ℤ :=
  let f := ⌊x⌋
  if x - f < 1 / 2 then f
  else if x - f > 1 / 2 then f + 1
  else if f % 2 = 0 then f else f + 1

/-- Model of Python `round(x, 2)`. -/
def round2 (x : ℚ) : ℚ :=
  (roundHalfEven (x * 100) : ℚ) / 100

/-- The dict `get_system_info` returns.  Its fields are gathered by thin
OS wrappers (`socket`, `uuid`) that never raise out of `get_system_info`;
the values obtained in this run are explicit inputs. -/
structure SystemInfo where
  hostname : String
  ip_maquina : Option String
  id_maquina : Option String

/-- The validated dict `get_location_data` returns: the three location
values as stored, and `offset_celsius` already coerced by `float()`. -/
structure LocRecord where
  ubicacion : JVal
  cpd : JVal
  sala : JVal
  offset_celsius : ℚ

/-- The keys `get_location_data` requires, in the order it checks them. -/
def required_keys : List String := ["ubicacion", "cpd", "sala", "offset_celsius"]

/-- Embedding of `location_info.get_location_data`: missing file raises
`FileNotFoundError`, an unparsable file raises `JSONDecodeError`, the
first missing required key (in `required_keys` order) raises a `KeyError`
naming it, and a non-coercible `offset_celsius` raises `ValueError`.
(A parsed top-level value that is not an object also raises in Python; the
exact exception for that corner is not claim-relevant.) -/
def get_location_data (path : String) (w : FileWorld) : Except PyExn LocRecord :=
  if w.fexists = false then .error (.fileNotFound path)
  else
    match w.content with
    | .error _ => .error .jsonDecode
    | .ok (JVal.obj fields) =>
      match jlookup fields "ubicacion" with
      | none => .error (.keyError "ubicacion")
      | some ub =>
        match jlookup fields "cpd" with
        | none => .error (.keyError "cpd")
        | some cpd =>
          match jlookup fields "sala" with
          | none => .error (.keyError "sala")
          | some sala =>
            match jlookup fields "offset_celsius" with
            | none => .error (.keyError "offset_celsius")
            | some off =>
              match pyFloat? off with
              | none => .error (.valueError "offset_celsius")
              | some q => .ok ⟨ub, cpd, sala, q⟩
    | .ok _ => .error (.typeError "config root is not an object")

/-- The payload dict `main` builds for one sensor (fixed keys, so a
structure; field order follows the dict literal in `main.py`). -/
structure Payload where
  fecha_hora : String
  nombre_sensor : PyStr
  numero_serie : PyStr
  ubicacion : JVal
  hostname_maquina : String
  ip_maquina : PyStr
  id_maquina : PyStr
  temperatura : ℚ
  humedad : Option ℚ
  bateria : Option ℚ
  cpd : JVal
  sala : JVal

/-- Embedding of the payload construction inside `main`'s loop:
`nombre_sensor` is `metadata.get("product", "Desconocido")`,
`numero_serie` is `metadata.get("serial_number")`, the temperature is
`round(temp, 2)`, humidity and battery are the literal `None`. -/
def assemble (system : SystemInfo) (location : LocRecord) (nowStr : String)
    (sensor : Reading) : Payload :=
  { fecha_hora := nowStr
    nombre_sensor := pyGet sensor.metadata "product" (some "Desconocido")
    numero_serie := pyGet sensor.metadata "serial_number" none
    ubicacion := location.ubicacion
    hostname_maquina := system.hostname
    ip_maquina := system.ip_maquina
    id_maquina := system.id_maquina
    temperatura := round2 sensor.temperature_c
    humedad := none
    bateria := none
    cpd := location.cpd
    sala := location.sala }

/-- The log lines `main` emits, kept structured (the data each f-string
formats) rather than as formatted text. -/
inductive LogEvent where
  | warnNoSensors
  | infoPayload (p : Payload)
  | infoInserted (nombre : PyStr) (temp : ℚ)
  | errorInsert (nombre : PyStr)
  | errorTop (e : PyExn)

/-- The external world of one `main` invocation: the system info gathered,
the configuration file state, the enumerated devices, the string the k-th
`datetime.now()` call formats to, and the outcome of the k-th
`insert_into_db` call on a given payload. -/
structure Env where
  system : SystemInfo
  configFile : FileWorld
  devices : List Device
  now : Nat → String
  sink : Nat → Payload → Except PyExn Bool

/-- What one run of the per-sensor loop produced: the log lines, the
payloads actually passed to `insert_into_db`, and the exception that
escaped the loop, if any. -/
structure LoopOut where
  log : List LogEvent
  calls : List Payload
  raised : Option PyExn

/-- Embedding of `main`'s `for sensor in mediciones` loop (`k` counts the
iterations already performed): each iteration assembles the payload, logs
it, calls the sink, then logs success or failure; a sink call that raises
ends the loop with that exception pending. -/
def deliveryLoop (env : Env) (location : LocRecord) :
    Nat → List Reading → LoopOut
  | _, [] => ⟨[], [], none⟩
  | k, sensor :: rest =>
    let payload := assemble env.system location (env.now k) sensor
    match env.sink k payload with
    | .error e => ⟨[.infoPayload payload], [payload], some e⟩
    | .ok success =>
      let out := deliveryLoop env location (k + 1) rest
      ⟨.infoPayload payload ::
         (if success then .infoInserted payload.nombre_sensor payload.temperatura
          else .errorInsert payload.nombre_sensor) :: out.log,
       payload :: out.calls, out.raised⟩

/-- What one `main` invocation produced: the log, the payloads passed to
the sink, and whether `get_medicion` was invoked at all. -/
structure RunResult where
  log : List LogEvent
  insertCalls : List Payload
  acquisitionCalled : Bool

/-- Embedding of `main.main`: load context, acquire, warn-and-return on an
empty batch, otherwise run the delivery loop; any exception raised along
the way reaches the top-level `except` and is logged as a single error. -/
def main (env : Env) : RunResult :=
  match get_location_data configPath env.configFile with
  | .error e => ⟨[.errorTop e], [], false⟩
  | .ok location =>
    match get_medicion location.offset_celsius env.devices with
    | .error e => ⟨[.errorTop e], [], true⟩
    | .ok mediciones =>
      if mediciones.isEmpty then ⟨[.warnNoSensors], [], true⟩
      else
        let out := deliveryLoop env location 0 mediciones
        match out.raised with
        | some e => ⟨out.log ++ [.errorTop e], out.calls, true⟩
        | none => ⟨out.log, out.calls, true⟩

/-- Embedding of `db_connection.load_credentials`: missing file raises
`FileNotFoundError`, an unparsable file raises `JSONDecodeError`, and the
`["database"]` subscript raises `KeyError` when absent (and `TypeError`
when the root is not an object). -/
def load_credentials (w : FileWorld) : Except PyExn JVal :=
  if w.fexists = false then .error (.fileNotFound credPath)
  else
    match w.content with
    | .error _ => .error .jsonDecode
    | .ok (JVal.obj fields) =>
      match jlookup fields "database" with
      | some v => .ok v
      | none => .error (.keyError "database")
    | .ok _ => .error (.typeError "credentials root is not an object")

/-- Python subscript `v[k]` on a JSON value: `KeyError` on a missing key,
`TypeError` when `v` is not an object. -/
def jsubscript (v : JVal) (k : String) : Except PyExn JVal :=
  match v with
  | .obj fields =>
    match jlookup fields k with
    | some x => .ok x
    | none => .error (.keyError k)
  | _ => .error (.typeError "subscript on a non-object")

/-- Outcome of one database call (`mariadb.connect` raises only
`mariadb.Error`; `execute`/`commit` may raise a `mariadb.Error`, which
`insert_into_db` catches, or some other exception, which it does not). -/
inductive DbCall where
  | ok
  | mariadbErr (msg : String)
  | otherErr (msg : String)
  deriving DecidableEq

/-- An open connection (the keyword arguments `mariadb.connect` was given). -/
structure Conn where
  host : JVal
  port : JVal
  user : JVal
  password : JVal
  database : JVal

/-- The external world of one `insert_into_db` call: the credentials file
state and the outcomes the connect, execute and commit calls would have. -/
structure DbWorld where
  credsFile : FileWorld
  connectOutcome : Option String
  execOutcome : DbCall
  commitOutcome : DbCall

/-- Embedding of `db_connection.get_db_connection`: exceptions from
`load_credentials` propagate (they are raised before the `try`); the five
`creds[...]` subscripts happen inside the `try` but raise non-`mariadb`
exceptions, which the `except mariadb.Error` clause does not catch; a
failing `mariadb.connect` is caught and yields `None`. -/
def get_db_connection (w : DbWorld) : Except PyExn (Option Conn) :=
  match load_credentials w.credsFile with
  | .error e => .error e
  | .ok creds =>
    match jsubscript creds "host" with
    | .error e => .error e
    | .ok host =>
      match jsubscript creds "port" with
      | .error e => .error e
      | .ok port =>
        match jsubscript creds "user" with
        | .error e => .error e
        | .ok user =>
          match jsubscript creds "password" with
          | .error e => .error e
          | .ok pw =>
            match jsubscript creds "database" with
            | .error e => .error e
            | .ok db =>
              match w.connectOutcome with
              | some _ => .ok none
              | none => .ok (some ⟨host, port, user, pw, db⟩)

/-- Embedding of `json_builder.insert_into_db`: a `None` connection yields
`False`; a `mariadb.Error` from `execute` or `commit` is caught and yields
`False`; any other exception propagates; `True` is returned only after
both `execute` and `commit` succeeded.  (The `telemetry_data[...]`
subscripts always succeed because `main` builds the full dict; the
`finally` block only releases resources.) -/
def insert_into_db (w : DbWorld) (telemetry_data : Payload) : Except PyExn Bool :=
  match get_db_connection w with
  | .error e => .error e
  | .ok none => .ok false
  | .ok (some _) =>
    match w.execOutcome with
    | .mariadbErr _ => .ok false
    | .otherErr m => .error (.other m)
    | .ok =>
      match w.commitOutcome with
      | .mariadbErr _ => .ok false
      | .otherErr m => .error (.other m)
      | .ok => .ok true

/-- The value the manufacturer/product entries take as a function of their
own read outcome alone. -/
def usbVal : UsbRead → PyStr
  | .ok v => v
  | .err => none

/-- The value the serial-number entry takes as a function of its own read
outcome alone. -/
def serialVal : UsbRead → PyStr
  | .ok v => if pyTruthy v then v else some "Desconocido"
  | .err => some "Desconocido"

def isInfoPayload : LogEvent → Bool
  | .infoPayload _ => true
  | _ => false

def isErrorInsert : LogEvent → Bool
  | .errorInsert _ => true
  | _ => false

def isErrorTop : LogEvent → Bool
  | .errorTop _ => true
  | _ => false

/-- The payloads the loop assembles for a batch, one per reading in batch
order (`k` is the index of the first reading). -/
def assembledList (env : Env) (location : LocRecord) :
    Nat → List Reading → List Payload
  | _, [] => []
  | k, s :: rest =>
    assemble env.system location (env.now k) s ::
      assembledList env location (k + 1) rest

/-- How many of the batch's sink calls return `False`. -/
def failCount (env : Env) (location : LocRecord) : Nat → List Reading → Nat
  | _, [] => 0
  | k, s :: rest =>
    (match env.sink k (assemble env.system location (env.now k) s) with
     | Except.ok false => 1
     | _ => 0) + failCount env location (k + 1) rest

/-! Concrete fixtures for witnesses and counterexamples. -/

def sys0 : SystemInfo := ⟨"Servidor1", some "192.168.0.10", some "a3f87b94"⟩

def cfgFieldsOk : List (String × JVal) :=
  [("ubicacion", .str "Sala 1"), ("cpd", .str "CPD1"), ("sala", .str "Sala A"),
   ("offset_celsius", .num (-6.14))]

def cfgOk : FileWorld := ⟨true, .ok (.obj cfgFieldsOk)⟩

def loc0 : LocRecord := ⟨.str "Sala 1", .str "CPD1", .str "Sala A", -6.14⟩

def desc0 : Descriptor :=
  ⟨0x413d, 0x2107, .ok (some "RDing"), .ok (some "TEMPer Sensor"),
   .ok (some "A1B2C3D4")⟩

def dev0 : Device := ⟨some desc0, .ok 28.512⟩

def devProductFail : Device :=
  ⟨some ⟨0x413d, 0x2107, .ok (some "RDing"), .err, .ok (some "A1B2C3D4")⟩,
   .ok 28.512⟩

def devSerialFail : Device :=
  ⟨some ⟨0x413d, 0x2107, .ok (some "RDing"), .ok (some "TEMPer Sensor"), .err⟩,
   .ok 28⟩

def devReadFail : Device := ⟨some desc0, .error (.deviceError "read timed out")⟩

/-- A device whose `_device` attribute is missing. -/
def devNoDesc : Device := ⟨none, .ok 28⟩

/-! ## Theorems -/

/-- C3 counterexample: the claim says a failing descriptor-field read
leaves exactly that field null, for every field; but when the
serial-number read fails the code stores the `'Desconocido'` sentinel
there, not null (siblings keep their values). -/
theorem serial_failure_sentinel_cex :
    pyGet (get_device_metadata devSerialFail) "serial_number" none = some "Desconocido"
    ∧ pyGet (get_device_metadata devSerialFail) "manufacturer" none = some "RDing"
    ∧ pyGet (get_device_metadata devSerialFail) "product" none = some "TEMPer Sensor"
    ∧ pyGet (get_device_metadata devSerialFail) "serial_number" none ≠ none :=
  ⟨rfl, rfl, rfl, by decide⟩

/-- C3 (amended): metadata extraction never fails the caller and degrades
in two tiers — with a descriptor present, every entry of the returned dict
is a function of its own descriptor field alone (so one failing read
degrades only its own entry: manufacturer/product to `None`, the serial
number to the `'Desconocido'` sentinel, while siblings keep their values);
with the descriptor missing entirely, every field is `None` except the
serial number, which is the sentinel. -/
theorem metadata_two_tier_amended (dev dev2 : Device) (d : Descriptor)
    (hd : dev.usbDev = some d) (hd2 : dev2.usbDev = none) :
    pyGet (get_device_metadata dev) "vendor_id" none = some (pyHex d.idVendor)
    ∧ pyGet (get_device_metadata dev) "product_id" none = some (pyHex d.idProduct)
    ∧ pyGet (get_device_metadata dev) "manufacturer" none = usbVal d.iManufacturer
    ∧ pyGet (get_device_metadata dev) "product" none = usbVal d.iProduct
    ∧ pyGet (get_device_metadata dev) "serial_number" none = serialVal d.iSerialNumber
    ∧ get_device_metadata dev2 =
        [("vendor_id", none), ("product_id", none), ("manufacturer", none),
         ("product", none), ("serial_number", some "Desconocido")] := by
  obtain ⟨vid, pid, man, pr, ser⟩ := d
  refine ⟨?_, ?_, ?_, ?_, ?_, ?_⟩
  · simp only [get_device_metadata, hd]; rfl
  · simp only [get_device_metadata, hd]; rfl
  · simp only [get_device_metadata, hd]; cases man <;> rfl
  · simp only [get_device_metadata, hd]; cases pr <;> rfl
  · simp only [get_device_metadata, hd]; cases ser <;> rfl
  · simp only [get_device_metadata, hd2]

/-- Witness for the amended C3 theorem at a concrete pair of devices. -/
theorem metadata_two_tier_amended_witness :
    pyGet (get_device_metadata dev0) "vendor_id" none = some (pyHex desc0.idVendor)
    ∧ pyGet (get_device_metadata dev0) "product_id" none = some (pyHex desc0.idProduct)
    ∧ pyGet (get_device_metadata dev0) "manufacturer" none = usbVal desc0.iManufacturer
    ∧ pyGet (get_device_metadata dev0) "product" none = usbVal desc0.iProduct
    ∧ pyGet (get_device_metadata dev0) "serial_number" none = serialVal desc0.iSerialNumber
    ∧ get_device_metadata devNoDesc =
        [("vendor_id", none), ("product_id", none), ("manufacturer", none),
         ("product", none), ("serial_number", some "Desconocido")] :=
  metadata_two_tier_amended dev0 devNoDesc desc0 rfl rfl

/-- C4: evaluating the code at the failing input — a device whose
descriptor is readable but whose product-string read fails.  The metadata
dict then stores `None` under `"product"`, and because the key is present,
`metadata.get("product", "Desconocido")` returns that stored `None`: the
assembled record's sensor name is null, not the `'Desconocido'` default
the spec requires (the `.get` default is dead code). -/
theorem product_failure_yields_null_name :
    pyGet (get_device_metadata devProductFail) "product" (some "Desconocido") = none
    ∧ (assemble sys0 loc0 "2025-11-15 12:00:00"
        ⟨get_device_metadata devProductFail, 22.372⟩).nombre_sensor = none
    ∧ pyGet (get_device_metadata devProductFail) "manufacturer" none = some "RDing" :=
  ⟨rfl, rfl, rfl⟩

/-- Positional specification of `get_medicion` on a successful run: the
output has one entry per device, entry `i` pairing device `i`'s metadata
with its read value plus the offset. -/
theorem get_medicion_spec (off : ℚ) :
    ∀ (devices : List Device) (out : List Reading),
      get_medicion off devices = Except.ok out →
      out.length = devices.length
      ∧ (∀ i d, devices.get? i = some d →
          ∃ s, out.get? i = some s
            ∧ d.get_temperature = Except.ok (s.temperature_c - off)
            ∧ s.metadata = get_device_metadata d)
      ∧ (∀ i s, out.get? i = some s →
          ∃ d, devices.get? i = some d
            ∧ d.get_temperature = Except.ok (s.temperature_c - off)
            ∧ s.metadata = get_device_metadata d) := by
  intro devices
  induction devices with
  | nil =>
    intro out h
    simp only [get_medicion] at h
    obtain rfl : ([] : List Reading) = out := by simpa using h
    refine ⟨rfl, ?_, ?_⟩ <;> intro i x hx <;> simp at hx
  | cons d0 rest ih =>
    intro out h
    simp only [get_medicion] at h
    cases ht : d0.get_temperature with
    | error e => rw [ht] at h; simp at h
    | ok t =>
      rw [ht] at h
      cases hm : get_medicion off rest with
      | error e => rw [hm] at h; simp at h
      | ok out' =>
        rw [hm] at h
        obtain rfl : (⟨get_device_metadata d0, t + off⟩ : Reading) :: out' = out := by
          simpa using h
        obtain ⟨ihlen, ihfwd, ihbwd⟩ := ih out' hm
        have hcancel : t + off - off = t := by ring
        refine ⟨by simp [ihlen], ?_, ?_⟩
        · intro i d hd
          cases i with
          | zero =>
            obtain rfl : d0 = d := by simpa using hd
            exact ⟨⟨get_device_metadata d0, t + off⟩, rfl, by rw [ht, hcancel], rfl⟩
          | succ n =>
            obtain ⟨s, hs1, hs2, hs3⟩ := ihfwd n d (by simpa using hd)
            exact ⟨s, by simpa using hs1, hs2, hs3⟩
        · intro i s hs
          cases i with
          | zero =>
            obtain rfl : (⟨get_device_metadata d0, t + off⟩ : Reading) = s := by
              simpa using hs
            exact ⟨d0, rfl, by rw [ht, hcancel], rfl⟩
          | succ n =>
            obtain ⟨d, hd1, hd2, hd3⟩ := ihbwd n s (by simpa using hs)
            exact ⟨d, by simpa using hd1, hd2, hd3⟩

/-- C6: acquisition returns exactly one reading per enumerated device, in
enumeration order (entry `i` comes from device `i`), each carrying that
device's metadata and its raw value plus the offset; with zero devices it
returns the empty list, not an error.  (The hypothesis restricts the claim
to runs where every read returns; a raising read is claim C10's case.) -/
theorem medicion_one_per_device (offset : ℚ) (devices : List Device)
    (h : ∀ d ∈ devices, ∃ t, d.get_temperature = Except.ok t) :
    get_medicion offset ([] : List Device) = Except.ok []
    ∧ ∃ out, get_medicion offset devices = Except.ok out
        ∧ out.length = devices.length
        ∧ ∀ i d, devices.get? i = some d →
            ∃ s, out.get? i = some s
              ∧ s.metadata = get_device_metadata d
              ∧ ∃ t, d.get_temperature = Except.ok t
                  ∧ s.temperature_c = t + offset := by
  refine ⟨rfl, ?_⟩
  have hok : ∀ (ds : List Device), (∀ d ∈ ds, ∃ t, d.get_temperature = Except.ok t) →
      ∃ out, get_medicion offset ds = Except.ok out := by
    intro ds
    induction ds with
    | nil => intro _; exact ⟨[], rfl⟩
    | cons d0 rest ih =>
      intro hds
      obtain ⟨t, ht⟩ := hds d0 (by simp)
      obtain ⟨out', hout'⟩ := ih (fun d hd => hds d (by simp [hd]))
      exact ⟨⟨get_device_metadata d0, t + offset⟩ :: out',
        by simp [get_medicion, ht, hout']⟩
  obtain ⟨out, hout⟩ := hok devices h
  obtain ⟨hlen, hfwd, _⟩ := get_medicion_spec offset devices out hout
  refine ⟨out, hout, hlen, ?_⟩
  intro i d hd
  obtain ⟨s, hs1, hs2, hs3⟩ := hfwd i d hd
  exact ⟨s, hs1, hs3, s.temperature_c - offset, hs2, by ring⟩

/-- Witness for C6 at a concrete two-device list. -/
theorem medicion_one_per_device_witness :
    get_medicion (-6.14) ([] : List Device) = Except.ok []
    ∧ ∃ out, get_medicion (-6.14) [dev0, devSerialFail] = Except.ok out
        ∧ out.length = ([dev0, devSerialFail] : List Device).length
        ∧ ∀ i d, ([dev0, devSerialFail] : List Device).get? i = some d →
            ∃ s, out.get? i = some s
              ∧ s.metadata = get_device_metadata d
              ∧ ∃ t, d.get_temperature = Except.ok t
                  ∧ s.temperature_c = t + (-6.14) :=
  medicion_one_per_device (-6.14) [dev0, devSerialFail] (by
    intro d hd
    rcases List.mem_cons.mp hd with h | h
    · exact ⟨28.512, by rw [h]; rfl⟩
    · rcases List.mem_cons.mp h with h2 | h2
      · exact ⟨28, by rw [h2]; rfl⟩
      · cases h2)

/-- A device somewhere in the list whose read raises makes the whole of
`get_medicion` raise. -/
theorem medicion_err_of_read_err (off : ℚ) :
    ∀ (devices : List Device) (d : Device) (e : PyExn),
      d ∈ devices → d.get_temperature = Except.error e →
      ∃ err, get_medicion off devices = Except.error err := by
  intro devices
  induction devices with
  | nil => intro d e hd _; cases hd
  | cons d0 rest ih =>
    intro d e hd he
    rcases List.mem_cons.mp hd with h0 | hmem
    · subst h0
      exact ⟨e, by simp [get_medicion, he]⟩
    · cases ht : d0.get_temperature with
      | error e0 => exact ⟨e0, by simp [get_medicion, ht]⟩
      | ok t =>
        obtain ⟨err, herr⟩ := ih d e hmem he
        exact ⟨err, by simp [get_medicion, ht, herr]⟩

/-- C10: acquisition is all-or-nothing — when any enumerated device's
temperature read raises, `get_medicion` propagates an exception, so the
orchestrator performs no delivery at all in that run (the top-level guard
logs the single error), including for earlier devices whose reads would
have succeeded. -/
theorem medicion_propagates_failure (env : Env) (location : LocRecord)
    (d : Device) (e : PyExn)
    (hloc : get_location_data configPath env.configFile = Except.ok location)
    (hd : d ∈ env.devices) (he : d.get_temperature = Except.error e) :
    (∃ err, get_medicion location.offset_celsius env.devices = Except.error err)
    ∧ (main env).insertCalls = []
    ∧ (∃ err, (main env).log = [LogEvent.errorTop err])
    ∧ (main env).acquisitionCalled = true := by
  obtain ⟨err, herr⟩ := medicion_err_of_read_err location.offset_celsius env.devices d e hd he
  exact ⟨⟨err, herr⟩, by simp [main, hloc, herr], ⟨err, by simp [main, hloc, herr]⟩,
    by simp [main, hloc, herr]⟩

/-- A run with one good device and one whose read raises. -/
def envReadFail : Env :=
  ⟨sys0, cfgOk, [dev0, devReadFail], fun _ => "2025-11-15 12:00:00",
   fun _ _ => Except.ok true⟩

/-- Witness for C10: with the first device good and the second raising,
the run delivers nothing and logs one top-level error. -/
theorem medicion_propagates_failure_witness :
    (∃ err, get_medicion loc0.offset_celsius envReadFail.devices = Except.error err)
    ∧ (main envReadFail).insertCalls = []
    ∧ (∃ err, (main envReadFail).log = [LogEvent.errorTop err])
    ∧ (main envReadFail).acquisitionCalled = true :=
  medicion_propagates_failure envReadFail loc0 devReadFail
    (PyExn.deviceError "read timed out") rfl
    (by simp [envReadFail, List.mem_cons]) rfl

/-- The length of the assembled-payload list equals the batch length. -/
theorem assembledList_length (env : Env) (location : LocRecord) :
    ∀ (rs : List Reading) (k : Nat),
      (assembledList env location k rs).length = rs.length := by
  intro rs
  induction rs with
  | nil => intro k; rfl
  | cons s rest ih => intro k; simp [assembledList, ih]

/-- When every sink call returns a boolean, the loop finishes the whole
batch: nothing is raised, the sink is called on every assembled payload in
order, every payload is logged, there is exactly one failure log entry per
`False` outcome, and no top-level error entry. -/
theorem deliveryLoop_full (env : Env) (location : LocRecord)
    (hsink : ∀ k p, ∃ b, env.sink k p = Except.ok b) :
    ∀ (rs : List Reading) (k : Nat),
      (deliveryLoop env location k rs).raised = none
      ∧ (deliveryLoop env location k rs).calls = assembledList env location k rs
      ∧ ((deliveryLoop env location k rs).log.countP isInfoPayload) = rs.length
      ∧ ((deliveryLoop env location k rs).log.countP isErrorInsert)
          = failCount env location k rs
      ∧ ((deliveryLoop env location k rs).log.countP isErrorTop) = 0 := by
  intro rs
  induction rs with
  | nil =>
    intro k
    refine ⟨rfl, rfl, ?_, ?_, ?_⟩ <;> simp [deliveryLoop, failCount]
  | cons s rest ih =>
    intro k
    obtain ⟨b, hb⟩ := hsink k (assemble env.system location (env.now k) s)
    obtain ⟨ih1, ih2, ih3, ih4, ih5⟩ := ih (k + 1)
    cases b
    · refine ⟨?_, ?_, ?_, ?_, ?_⟩ <;>
        simp [deliveryLoop, hb, assembledList, failCount, List.countP_cons,
          isInfoPayload, isErrorInsert, isErrorTop, ih1, ih2, ih3, ih4, ih5,
          Nat.add_comm]
    · refine ⟨?_, ?_, ?_, ?_, ?_⟩ <;>
        simp [deliveryLoop, hb, assembledList, failCount, List.countP_cons,
          isInfoPayload, isErrorInsert, isErrorTop, ih1, ih2, ih3, ih4, ih5,
          Nat.add_comm]

/-- Each payload the loop passed to the sink is the one assembled from the
reading at the same position of the batch. -/
theorem deliveryLoop_calls_spec (env : Env) (location : LocRecord) :
    ∀ (rs : List Reading) (k : Nat) (i : Nat) (p : Payload),
      (deliveryLoop env location k rs).calls.get? i = some p →
      ∃ s, rs.get? i = some s
        ∧ p = assemble env.system location (env.now (k + i)) s := by
  intro rs
  induction rs with
  | nil => intro k i p hp; simp [deliveryLoop] at hp
  | cons s rest ih =>
    intro k i p hp
    cases hb : env.sink k (assemble env.system location (env.now k) s) with
    | error e =>
      rw [show (deliveryLoop env location k (s :: rest)).calls
            = [assemble env.system location (env.now k) s] by
          simp [deliveryLoop, hb]] at hp
      cases i with
      | zero =>
        obtain rfl : assemble env.system location (env.now k) s = p := by simpa using hp
        exact ⟨s, rfl, by rw [Nat.add_zero]⟩
      | succ n => simp at hp
    | ok b =>
      rw [show (deliveryLoop env location k (s :: rest)).calls
            = assemble env.system location (env.now k) s ::
                (deliveryLoop env location (k + 1) rest).calls by
          simp [deliveryLoop, hb]] at hp
      cases i with
      | zero =>
        obtain rfl : assemble env.system location (env.now k) s = p := by simpa using hp
        exact ⟨s, rfl, by rw [Nat.add_zero]⟩
      | succ n =>
        obtain ⟨s2, hs1, hs2⟩ := ih (k + 1) n p (by simpa using hp)
        refine ⟨s2, by simpa using hs1, ?_⟩
        have hkn : k + 1 + n = k + (n + 1) := by omega
        rw [hs2, hkn]

/-- Every payload the loop passed to the sink was assembled from the
run's single system/location snapshot. -/
theorem deliveryLoop_calls_mem (env : Env) (location : LocRecord) :
    ∀ (rs : List Reading) (k : Nat) (p : Payload),
      p ∈ (deliveryLoop env location k rs).calls →
      ∃ j s, p = assemble env.system location (env.now j) s := by
  intro rs
  induction rs with
  | nil => intro k p hp; simp [deliveryLoop] at hp
  | cons s rest ih =>
    intro k p hp
    cases hb : env.sink k (assemble env.system location (env.now k) s) with
    | error e =>
      rw [show (deliveryLoop env location k (s :: rest)).calls
            = [assemble env.system location (env.now k) s] by
          simp [deliveryLoop, hb]] at hp
      obtain rfl : p = assemble env.system location (env.now k) s := by simpa using hp
      exact ⟨k, s, rfl⟩
    | ok b =>
      rw [show (deliveryLoop env location k (s :: rest)).calls
            = assemble env.system location (env.now k) s ::
                (deliveryLoop env location (k + 1) rest).calls by
          simp [deliveryLoop, hb]] at hp
      rcases List.mem_cons.mp hp with h0 | hmem
      · exact ⟨k, s, h0⟩
      · exact ih (k + 1) p hmem

/-- On a run whose context loads and whose batch is nonempty, `main`'s
sink calls are the loop's, and when nothing is raised its log is the
loop's log. -/
theorem main_loop_shape (env : Env) (location : LocRecord) (s : Reading)
    (rest : List Reading)
    (hloc : get_location_data configPath env.configFile = Except.ok location)
    (hmed : get_medicion location.offset_celsius env.devices = Except.ok (s :: rest)) :
    (main env).insertCalls = (deliveryLoop env location 0 (s :: rest)).calls
    ∧ ((deliveryLoop env location 0 (s :: rest)).raised = none →
        (main env).log = (deliveryLoop env location 0 (s :: rest)).log) := by
  cases hr : (deliveryLoop env location 0 (s :: rest)).raised with
  | none =>
    constructor <;> simp [main, hloc, hmed, hr]
  | some e =>
    constructor
    · simp [main, hloc, hmed, hr]
    · intro h; exact Option.noConfusion h

/-- C1: in the per-sensor delivery loop, one sensor's delivery failure
does not stop the batch — whenever every sink call returns a boolean, the
sink is called on every assembled reading in order, every reading's
payload is logged, and there is exactly one failure log entry per `False`
outcome (and no top-level error entry). -/
theorem orchestrator_isolation (env : Env) (location : LocRecord)
    (readings : List Reading)
    (hloc : get_location_data configPath env.configFile = Except.ok location)
    (hmed : get_medicion location.offset_celsius env.devices = Except.ok readings)
    (hne : readings ≠ [])
    (hsink : ∀ k p, ∃ b, env.sink k p = Except.ok b) :
    (main env).insertCalls = assembledList env location 0 readings
    ∧ (main env).insertCalls.length = readings.length
    ∧ ((main env).log.countP isInfoPayload) = readings.length
    ∧ ((main env).log.countP isErrorInsert) = failCount env location 0 readings
    ∧ ((main env).log.countP isErrorTop) = 0 := by
  cases readings with
  | nil => exact absurd rfl hne
  | cons s rest =>
    obtain ⟨l1, l2, l3, l4, l5⟩ := deliveryLoop_full env location hsink (s :: rest) 0
    obtain ⟨hcalls, hlog⟩ := main_loop_shape env location s rest hloc hmed
    have hlog2 := hlog l1
    refine ⟨?_, ?_, ?_, ?_, ?_⟩
    · rw [hcalls, l2]
    · rw [hcalls, l2, assembledList_length]
    · rw [hlog2, l3]
    · rw [hlog2, l4]
    · rw [hlog2, l5]

/-- The reading `get_medicion` produces for `dev0`. -/
def r0 : Reading := ⟨get_device_metadata dev0, 28.512 + (-6.14)⟩

/-- The payload `main` assembles for `r0` in the fixture runs. -/
def p0 : Payload := assemble sys0 loc0 "2025-11-15 12:00:00" r0

/-- A run with one good device and an always-succeeding sink. -/
def env1 : Env :=
  ⟨sys0, cfgOk, [dev0], fun _ => "2025-11-15 12:00:00",
   fun _ _ => Except.ok true⟩

/-- A run with three good devices whose sink fails exactly on the second
call. -/
def env3 : Env :=
  ⟨sys0, cfgOk, [dev0, dev0, dev0], fun _ => "2025-11-15 12:00:00",
   fun k _ => Except.ok (k != 1)⟩

def readings3 : List Reading := [r0, r0, r0]

/-- Witness for C1: three readings, sink failing only for the second —
all three are attempted and logged, with exactly one failure entry. -/
theorem orchestrator_isolation_witness :
    ((main env3).insertCalls = assembledList env3 loc0 0 readings3
     ∧ (main env3).insertCalls.length = readings3.length
     ∧ ((main env3).log.countP isInfoPayload) = readings3.length
     ∧ ((main env3).log.countP isErrorInsert) = failCount env3 loc0 0 readings3
     ∧ ((main env3).log.countP isErrorTop) = 0)
    ∧ readings3.length = 3
    ∧ failCount env3 loc0 0 readings3 = 1 :=
  ⟨orchestrator_isolation env3 loc0 readings3 rfl rfl (by simp [readings3])
     (fun k p => ⟨k != 1, rfl⟩), rfl, rfl⟩

/-- C9: every payload the run passes to the sink carries the single
host/location snapshot taken at the start of the run — the six context
fields equal the snapshot's on every record, so they are identical across
all records of the run and only sensor-specific fields vary. -/
theorem snapshot_consistency (env : Env) (location : LocRecord)
    (hloc : get_location_data configPath env.configFile = Except.ok location) :
    ∀ p ∈ (main env).insertCalls,
      p.ubicacion = location.ubicacion
      ∧ p.hostname_maquina = env.system.hostname
      ∧ p.ip_maquina = env.system.ip_maquina
      ∧ p.id_maquina = env.system.id_maquina
      ∧ p.cpd = location.cpd
      ∧ p.sala = location.sala := by
  intro p hp
  cases hmed : get_medicion location.offset_celsius env.devices with
  | error e =>
    rw [show (main env).insertCalls = [] by simp [main, hloc, hmed]] at hp
    simp at hp
  | ok out =>
    cases out with
    | nil =>
      rw [show (main env).insertCalls = [] by simp [main, hloc, hmed]] at hp
      simp at hp
    | cons s rest =>
      obtain ⟨hcalls, _⟩ := main_loop_shape env location s rest hloc hmed
      rw [hcalls] at hp
      obtain ⟨j, s2, rfl⟩ := deliveryLoop_calls_mem env location (s :: rest) 0 p hp
      exact ⟨rfl, rfl, rfl, rfl, rfl, rfl⟩

/-- Witness for C9 at the one-device fixture run. -/
theorem snapshot_consistency_witness :
    p0.ubicacion = loc0.ubicacion
    ∧ p0.hostname_maquina = env1.system.hostname
    ∧ p0.ip_maquina = env1.system.ip_maquina
    ∧ p0.id_maquina = env1.system.id_maquina
    ∧ p0.cpd = loc0.cpd
    ∧ p0.sala = loc0.sala :=
  snapshot_consistency env1 loc0 rfl p0 (List.mem_singleton.mpr rfl)

/-- C5: every payload passed to the sink stores, as its temperature, the
batch reading at the same position rounded to two decimals, and that
reading is its device's raw value plus the offset — so the persisted
temperature is `round2 (raw + offset)`. -/
theorem assembled_temp_rounded (env : Env) (location : LocRecord)
    (out : List Reading)
    (hloc : get_location_data configPath env.configFile = Except.ok location)
    (hmed : get_medicion location.offset_celsius env.devices = Except.ok out) :
    ∀ i p, (main env).insertCalls.get? i = some p →
      ∃ s d, out.get? i = some s ∧ env.devices.get? i = some d
        ∧ d.get_temperature = Except.ok (s.temperature_c - location.offset_celsius)
        ∧ p.temperatura = round2 s.temperature_c := by
  intro i p hp
  cases out with
  | nil =>
    rw [show (main env).insertCalls = [] by simp [main, hloc, hmed]] at hp
    simp at hp
  | cons s0 rest =>
    obtain ⟨hcalls, _⟩ := main_loop_shape env location s0 rest hloc hmed
    rw [hcalls] at hp
    obtain ⟨s, hs1, rfl⟩ := deliveryLoop_calls_spec env location (s0 :: rest) 0 i p hp
    obtain ⟨_, _, hbwd⟩ :=
      get_medicion_spec location.offset_celsius env.devices (s0 :: rest) hmed
    obtain ⟨d, hd1, hd2, _⟩ := hbwd i s hs1
    exact ⟨s, d, hs1, hd1, hd2, rfl⟩

/-- Witness for C5 at the one-device fixture run, checking the spec's
numeric example: raw 28.512 with offset -6.14 persists as 22.37. -/
theorem assembled_temp_rounded_witness :
    (∃ s d, ([r0] : List Reading).get? 0 = some s
      ∧ env1.devices.get? 0 = some d
      ∧ d.get_temperature = Except.ok (s.temperature_c - loc0.offset_celsius)
      ∧ p0.temperatura = round2 s.temperature_c)
    ∧ p0.temperatura = 22.37
    ∧ p0.temperatura ≠ 22.372 := by
  refine ⟨assembled_temp_rounded env1 loc0 [r0] rfl rfl 0 p0 rfl, ?_, ?_⟩
  · show round2 (28.512 + (-6.14)) = 22.37
    rw [round2, roundHalfEven]
    norm_num
  · show round2 (28.512 + (-6.14)) ≠ 22.372
    rw [round2, roundHalfEven]
    norm_num

/-- C7: a location configuration missing a required key makes the run
terminate with a single fatal error naming a missing key, and a present
but non-coercible `offset_celsius` with a single fatal `ValueError` — in
both cases before device enumeration: `get_medicion` is never invoked and
the sink receives no call. -/
theorem config_missing_key_fatal (env : Env) (fields : List (String × JVal))
    (hfe : env.configFile.fexists = true)
    (hct : env.configFile.content = Except.ok (JVal.obj fields)) :
    ((∃ k ∈ required_keys, jlookup fields k = none) →
      ∃ k, k ∈ required_keys ∧ jlookup fields k = none
        ∧ main env = ⟨[LogEvent.errorTop (PyExn.keyError k)], [], false⟩)
    ∧ (∀ v, (∀ k ∈ required_keys, jlookup fields k ≠ none) →
        jlookup fields "offset_celsius" = some v → pyFloat? v = none →
        main env = ⟨[LogEvent.errorTop (PyExn.valueError "offset_celsius")], [], false⟩) := by
  constructor
  · rintro ⟨k0, hk0, hk0n⟩
    cases h1 : jlookup fields "ubicacion" with
    | none =>
      exact ⟨"ubicacion", by simp [required_keys], h1,
        by simp [main, get_location_data, hfe, hct, h1]⟩
    | some ub =>
      cases h2 : jlookup fields "cpd" with
      | none =>
        exact ⟨"cpd", by simp [required_keys], h2,
          by simp [main, get_location_data, hfe, hct, h1, h2]⟩
      | some cpd =>
        cases h3 : jlookup fields "sala" with
        | none =>
          exact ⟨"sala", by simp [required_keys], h3,
            by simp [main, get_location_data, hfe, hct, h1, h2, h3]⟩
        | some sala =>
          cases h4 : jlookup fields "offset_celsius" with
          | none =>
            exact ⟨"offset_celsius", by simp [required_keys], h4,
              by simp [main, get_location_data, hfe, hct, h1, h2, h3, h4]⟩
          | some off =>
            exfalso
            have : k0 = "ubicacion" ∨ k0 = "cpd" ∨ k0 = "sala" ∨ k0 = "offset_celsius" := by
              simpa [required_keys] using hk0
            rcases this with rfl | rfl | rfl | rfl
            · rw [h1] at hk0n; exact Option.noConfusion hk0n
            · rw [h2] at hk0n; exact Option.noConfusion hk0n
            · rw [h3] at hk0n; exact Option.noConfusion hk0n
            · rw [h4] at hk0n; exact Option.noConfusion hk0n
  · intro v hall hv hnum
    cases h1 : jlookup fields "ubicacion" with
    | none => exact absurd h1 (hall "ubicacion" (by simp [required_keys]))
    | some ub =>
      cases h2 : jlookup fields "cpd" with
      | none => exact absurd h2 (hall "cpd" (by simp [required_keys]))
      | some cpd =>
        cases h3 : jlookup fields "sala" with
        | none => exact absurd h3 (hall "sala" (by simp [required_keys]))
        | some sala =>
          simp [main, get_location_data, hfe, hct, h1, h2, h3, hv, hnum]

/-- A location configuration that lacks `offset_celsius`. -/
def cfgFieldsNoOffset : List (String × JVal) :=
  [("ubicacion", .str "Sala 1"), ("cpd", .str "CPD1"), ("sala", .str "Sala A")]

/-- A run whose location configuration lacks `offset_celsius`. -/
def envNoOffset : Env :=
  ⟨sys0, ⟨true, .ok (.obj cfgFieldsNoOffset)⟩, [dev0],
   fun _ => "2025-11-15 12:00:00", fun _ _ => Except.ok true⟩

/-- Witness for C7: with `offset_celsius` absent the run logs one fatal
error naming a missing key and never reaches acquisition. -/
theorem config_missing_key_fatal_witness :
    ∃ k, k ∈ required_keys ∧ jlookup cfgFieldsNoOffset k = none
      ∧ main envNoOffset = ⟨[LogEvent.errorTop (PyExn.keyError k)], [], false⟩ :=
  (config_missing_key_fatal envNoOffset cfgFieldsNoOffset rfl rfl).1
    ⟨"offset_celsius", by simp [required_keys], rfl⟩

/-- C2 counterexample: with the credentials file missing, the store
connection cannot be established, yet `insert_into_db` raises
(`FileNotFoundError` escapes `load_credentials` uncaught) instead of
returning `False`. -/
def fwMissing : FileWorld := ⟨false, .ok .null⟩

def dbwNoCreds : DbWorld := ⟨fwMissing, none, .ok, .ok⟩

theorem insert_raises_on_missing_creds_cex :
    insert_into_db dbwNoCreds p0 = Except.error (PyExn.fileNotFound credPath)
    ∧ insert_into_db dbwNoCreds p0 ≠ Except.ok false
    ∧ insert_into_db dbwNoCreds p0 ≠ Except.ok true :=
  ⟨rfl, fun h => Except.noConfusion h, fun h => Except.noConfusion h⟩

/-- C2 (amended): the delivery call returns `False` when the connect
attempt fails with a database error or when the insert (execute or
commit) fails with a database error, and returns `True` only when
connect, execute and commit all succeed; but failures while loading or
reading the credentials, and non-database exceptions, propagate as
exceptions rather than returning `False`. -/
theorem insert_outcomes_amended (w : DbWorld) (p : Payload) :
    (∀ e, get_db_connection w = Except.error e →
      insert_into_db w p = Except.error e)
    ∧ (get_db_connection w = Except.ok none →
      insert_into_db w p = Except.ok false)
    ∧ (∀ c m, get_db_connection w = Except.ok (some c) →
      w.execOutcome = DbCall.mariadbErr m → insert_into_db w p = Except.ok false)
    ∧ (∀ c m, get_db_connection w = Except.ok (some c) →
      w.execOutcome = DbCall.ok → w.commitOutcome = DbCall.mariadbErr m →
      insert_into_db w p = Except.ok false)
    ∧ (insert_into_db w p = Except.ok true ↔
      (∃ c, get_db_connection w = Except.ok (some c))
      ∧ w.execOutcome = DbCall.ok ∧ w.commitOutcome = DbCall.ok) := by
  refine ⟨?_, ?_, ?_, ?_, ?_, ?_⟩
  · intro e h; simp [insert_into_db, h]
  · intro h; simp [insert_into_db, h]
  · intro c m h hm; simp [insert_into_db, h, hm]
  · intro c m h he hm; simp [insert_into_db, h, he, hm]
  · intro h
    cases hc : get_db_connection w with
    | error e => rw [show insert_into_db w p = Except.error e by
        simp [insert_into_db, hc]] at h; exact Except.noConfusion h
    | ok oc =>
      cases oc with
      | none => rw [show insert_into_db w p = Except.ok false by
          simp [insert_into_db, hc]] at h; simp at h
      | some c =>
        cases he : w.execOutcome with
        | mariadbErr m => rw [show insert_into_db w p = Except.ok false by
            simp [insert_into_db, hc, he]] at h; simp at h
        | otherErr m => rw [show insert_into_db w p = Except.error (PyExn.other m) by
            simp [insert_into_db, hc, he]] at h; exact Except.noConfusion h
        | ok =>
          cases hm : w.commitOutcome with
          | mariadbErr m => rw [show insert_into_db w p = Except.ok false by
              simp [insert_into_db, hc, he, hm]] at h; simp at h
          | otherErr m => rw [show insert_into_db w p = Except.error (PyExn.other m) by
              simp [insert_into_db, hc, he, hm]] at h; exact Except.noConfusion h
          | ok => exact ⟨⟨c, rfl⟩, rfl, rfl⟩
  · rintro ⟨⟨c, hc⟩, he, hm⟩
    simp [insert_into_db, hc, he, hm]

/-- A well-formed credentials file matching the documented layout. -/
def fwCredsOk : FileWorld :=
  ⟨true, .ok (.obj [("database",
    .obj [("host", .str "servidor"), ("port", .num 3306),
          ("user", .str "usuario"), ("password", .str "pass"),
          ("database", .str "BBDD")])])⟩

/-- A world where the credentials load but `mariadb.connect` fails. -/
def dbwConnFail : DbWorld := ⟨fwCredsOk, some "server down", .ok, .ok⟩

/-- A world where connect, execute and commit all succeed. -/
def dbwOk : DbWorld := ⟨fwCredsOk, none, .ok, .ok⟩

def connOk : Conn :=
  ⟨.str "servidor", .num 3306, .str "usuario", .str "pass", .str "BBDD"⟩

/-- Witness for the amended C2 theorem: a failed connect yields `False`,
a fully successful delivery yields `True`. -/
theorem insert_outcomes_amended_witness :
    insert_into_db dbwConnFail p0 = Except.ok false
    ∧ insert_into_db dbwOk p0 = Except.ok true :=
  ⟨(insert_outcomes_amended dbwConnFail p0).2.1 rfl,
   (insert_outcomes_amended dbwOk p0).2.2.2.2.mpr ⟨⟨connOk, rfl⟩, rfl, rfl⟩⟩

/-- A run over one good device whose sink is the real delivery function
against a world with no credentials file. -/
def envC8 : Env :=
  ⟨sys0, cfgOk, [dev0], fun _ => "2025-11-15 12:00:00",
   fun _ p => insert_into_db dbwNoCreds p⟩

/-- C8 counterexample: with the store credentials file missing, the run
does NOT abort before sensor I/O — the device is enumerated and read, a
record is assembled, logged and handed to the sink, and only then does the
missing file surface (as the top-level logged error). -/
theorem creds_missing_after_sensor_io_cex :
    (main envC8).acquisitionCalled = true
    ∧ (main envC8).insertCalls = [p0]
    ∧ (main envC8).log
        = [LogEvent.infoPayload p0, LogEvent.errorTop (PyExn.fileNotFound credPath)] :=
  ⟨rfl, rfl, rfl⟩

/-- C8 (amended): a missing or malformed credentials file surfaces as an
exception at the first delivery attempt, after device enumeration and
temperature reads; the top-level guard logs that one error and the run
ends, the remaining records of the batch undelivered. -/
theorem creds_failure_first_delivery_amended (env : Env) (w : DbWorld)
    (e : PyExn) (location : LocRecord) (s : Reading) (rest : List Reading)
    (hsink : ∀ k p, env.sink k p = insert_into_db w p)
    (hcred : load_credentials w.credsFile = Except.error e)
    (hloc : get_location_data configPath env.configFile = Except.ok location)
    (hmed : get_medicion location.offset_celsius env.devices = Except.ok (s :: rest)) :
    main env = ⟨[LogEvent.infoPayload (assemble env.system location (env.now 0) s),
                 LogEvent.errorTop e],
                [assemble env.system location (env.now 0) s], true⟩ := by
  have hins : ∀ p, insert_into_db w p = Except.error e := fun p => by
    simp [insert_into_db, get_db_connection, hcred]
  have hloop : deliveryLoop env location 0 (s :: rest)
      = ⟨[.infoPayload (assemble env.system location (env.now 0) s)],
         [assemble env.system location (env.now 0) s], some e⟩ := by
    simp [deliveryLoop, hsink 0 (assemble env.system location (env.now 0) s), hins]
  simp [main, hloc, hmed, hloop]

/-- Witness for the amended C8 theorem at the concrete
missing-credentials run. -/
theorem creds_failure_first_delivery_amended_witness :
    main envC8
      = ⟨[LogEvent.infoPayload (assemble envC8.system loc0 (envC8.now 0) r0),
          LogEvent.errorTop (PyExn.fileNotFound credPath)],
         [assemble envC8.system loc0 (envC8.now 0) r0], true⟩ :=
  creds_failure_first_delivery_amended envC8 dbwNoCreds
    (PyExn.fileNotFound credPath) loc0 r0 [] (fun k p => rfl) rfl rfl rfl

end CT
